import Mathlib

/-!
Verification of `fake_chatgpt_api.py` (class `FakeChatGPTAPI`).

The program drives a browser through Selenium.  The browser and the
filesystem are external, so they are embedded as explicit oracles /
state: every Selenium wait or find is a value of type `Option Elem`
(`none` models the `TimeoutException` / `NoSuchElementException` raised
when the element is not located within the timeout), and the filesystem
is an association list from paths to file contents.  Python exceptions
are modelled with `Except` / an explicit outcome type; a Python function
that catches an exception is embedded by matching on the corresponding
oracle value.
-/

namespace FakeChatGPT

/-- A Selenium `WebElement` handle; the code only ever observes its text. -/
structure Elem where
  text : String
deriving Repr, DecidableEq

/-- The Python exceptions distinguished by the modelled code paths. -/
inductive PyExn where
  | timeoutException
  | noSuchElementException
  | fileNotFoundError
  | jsonDecodeError
  | unboundLocalError
  | other (msg : String)
deriving Repr, DecidableEq

/-! ### Filesystem model

A flat map from path strings to file contents.  `open(path, mode)` on
the empty path always raises `FileNotFoundError` in CPython, and
`os.path.exists("")` is always `False`; both facts are reflected below. -/

abbrev FS := List (String × String)

def FS.lookupFile (fs : FS) (p : String) : Option String :=
  List.lookup p fs

/-- os.path.exists: the empty path never exists; otherwise the file must
be present in the store. -/
def FS.pathExists (fs : FS) (p : String) : Bool :=
  (!(p == "")) && (fs.lookupFile p).isSome

/-- Model of `open(p, 'w')` followed by writing `content`: rejects the
empty path (CPython raises `FileNotFoundError` on `open("", 'w')`),
otherwise replaces the file's content. -/
def FS.writeFile (fs : FS) (p content : String) : Except PyExn FS :=
  if p = "" then .error .fileNotFoundError
  else .ok ((p, content) :: fs.filter (fun kv => kv.1 ≠ p))

/-- Model of `open(p, 'r')` followed by reading the whole file. -/
def FS.readFile (fs : FS) (p : String) : Except PyExn String :=
  if p = "" then .error .fileNotFoundError
  else
    match fs.lookupFile p with
    | some c => .ok c
    | none => .error .fileNotFoundError

/-! ### JSON model

A cookie object is a JSON object with flat fields, embedded as an
association list of string keys to string values (numeric and boolean
field values are kept as their token text).  `json.dumps` and
`json.loads` are modelled for the fragment the program exchanges:
arrays of flat objects.  String escape sequences are not modelled. -/

abbrev Cookie := List (String × String)

def jsonQuote (s : String) : String := "\"" ++ s ++ "\""

def lbrace : Char := Char.ofNat 123

def rbrace : Char := Char.ofNat 125

def json_dumps_field (kv : String × String) : String :=
  jsonQuote kv.1 ++ ": " ++ jsonQuote kv.2

def json_dumps_obj (c : Cookie) : String :=
  "\x7b" ++ String.intercalate ", " (c.map json_dumps_field) ++ "\x7d"

/-- Model of `json.dumps` on a list of cookie objects.  In particular
`json_dumps [] = "[]"`, exactly as `json.dumps([])` in Python. -/
def json_dumps (cs : List Cookie) : String :=
  "[" ++ String.intercalate ", " (cs.map json_dumps_obj) ++ "]"

def isWsChar (c : Char) : Bool :=
  c = ' ' || c = '\n' || c = '\t' || c = '\r'

def skipWs : List Char → List Char
  | [] => []
  | c :: rest => if isWsChar c then skipWs rest else c :: rest

/-- Parse the remainder of a JSON string literal (the opening quote has
already been consumed); returns the contents and the rest of the input. -/
def parseJStringAux : List Char → Option (List Char × List Char)
  | [] => none
  | c :: rest =>
    if c = '"' then some ([], rest)
    else
      match parseJStringAux rest with
      | some (s, r) => some (c :: s, r)
      | none => none

/-- Parse a bare (unquoted) JSON token: digits, `true`, `false`, `null`,
read up to a structural character or whitespace. -/
def parseBareAux : List Char → List Char × List Char
  | [] => ([], [])
  | c :: rest =>
    if c = ',' || c = rbrace || c = ']' || c = '[' || c = ':' || isWsChar c then
      ([], c :: rest)
    else
      let (t, r) := parseBareAux rest
      (c :: t, r)

/-- Parse a JSON scalar value: a quoted string or a bare token. -/
def parseJValue (input : List Char) : Option (String × List Char) :=
  match skipWs input with
  | [] => none
  | c :: rest =>
    if c = '"' then
      match parseJStringAux rest with
      | some (s, r) => some (⟨s⟩, r)
      | none => none
    else
      match parseBareAux (c :: rest) with
      | ([], _) => none
      | (t, r) => some (⟨t⟩, r)

/-- Parse one `"key": value` pair of an object body. -/
def parseJPair (input : List Char) : Option ((String × String) × List Char) :=
  match skipWs input with
  | [] => none
  | c :: rest =>
    if c = '"' then
      match parseJStringAux rest with
      | some (k, r1) =>
        match skipWs r1 with
        | ':' :: r2 =>
          match parseJValue r2 with
          | some (v, r3) => some ((⟨k⟩, v), r3)
          | none => none
        | _ => none
      | none => none
    else none

/-- Parse the pairs of an object body up to the closing brace; `fuel`
bounds the recursion. -/
def parseJPairs (fuel : Nat) (input : List Char) : Option (Cookie × List Char) :=
  match fuel with
  | 0 => none
  | fuel + 1 =>
    match parseJPair input with
    | none => none
    | some (kv, rest) =>
      match skipWs rest with
      | ',' :: r2 =>
        match parseJPairs fuel r2 with
        | some (kvs, r3) => some (kv :: kvs, r3)
        | none => none
      | c :: r2 => if c = rbrace then some ([kv], r2) else none
      | [] => none

/-- Parse one JSON object (a cookie). -/
def parseJObj (fuel : Nat) (input : List Char) : Option (Cookie × List Char) :=
  match skipWs input with
  | [] => none
  | c :: rest =>
    if c = lbrace then
      match skipWs rest with
      | c2 :: r2 =>
        if c2 = rbrace then some ([], r2)
        else parseJPairs fuel (c2 :: r2)
      | [] => none
    else none

/-- Parse the comma-separated objects of an array body up to `]`. -/
def parseJObjs (fuel : Nat) (input : List Char) : Option (List Cookie × List Char) :=
  match fuel with
  | 0 => none
  | fuel + 1 =>
    match parseJObj fuel input with
    | none => none
    | some (c, rest) =>
      match skipWs rest with
      | ',' :: r2 =>
        match parseJObjs fuel r2 with
        | some (cs, r3) => some (c :: cs, r3)
        | none => none
      | ']' :: r2 => some ([c], r2)
      | _ => none

/-- Model of `json.loads` on the contents of a cookies file: a JSON
array of flat objects.  Returns `none` where Python raises
`json.JSONDecodeError`. -/
def json_loads_cookies (s : String) : Option (List Cookie) :=
  match skipWs s.toList with
  | '[' :: rest =>
    match skipWs rest with
    | ']' :: r2 => if (skipWs r2).isEmpty then some [] else none
    | body =>
      match parseJObjs (s.toList.length + 1) body with
      | some (cs, r3) => if (skipWs r3).isEmpty then some cs else none
      | none => none
  | _ => none

/-! ### Cookie handling in `__init__` (lines 126-147) -/

/-- Python `cookie.pop('domain', None)`: remove the `domain` field from a
cookie object (line 146). -/
def popDomain (c : Cookie) : Cookie :=
  c.filter (fun kv => kv.1 ≠ "domain")

/-- Lines 144-147: the cookie objects handed to `driver.add_cookie`,
each with its `domain` field stripped. -/
def injected_cookies (cookies_list : List Cookie) : List Cookie :=
  cookies_list.map popDomain

structure CookieInit where
  fs : FS
  createdNew : Bool
  injected : List Cookie
deriving Repr, DecidableEq

/-- Lines 126-147 of `fake_chatgpt_api.py`: if no file exists at
`cookies_path`, write `json.dumps([])` there; then read the file, parse
it with `json.loads`, strip the `domain` key from every cookie object and
inject the rest.  Any `OSError` from `open` or decode error from
`json.loads` propagates. -/
def cookie_init_file (fs : FS) (cookies_path : String) : Except PyExn (FS × Bool) :=
  if FS.pathExists fs cookies_path then .ok (fs, false)
  else
    match FS.writeFile fs cookies_path (json_dumps []) with
    | .ok fs1 => .ok (fs1, true)
    | .error e => .error e

def cookie_init (fs : FS) (cookies_path : String) : Except PyExn CookieInit :=
  match cookie_init_file fs cookies_path with
  | .error e => .error e
  | .ok (fs1, created) =>
    match FS.readFile fs1 cookies_path with
    | .error e => .error e
    | .ok content =>
      match json_loads_cookies content with
      | none => .error .jsonDecodeError
      | some cookies_list => .ok ⟨fs1, created, injected_cookies cookies_list⟩

/-! ### `is_login` (lines 181-198) -/

/-- Lines 181-198: `button` starts as `None`; `find_element` on the
login button either locates it (`some`) or raises
`NoSuchElementException` (`none`), which is caught by the `except` and
leaves `button` as `None`; the method returns `button is None`. -/
def is_login (loginButton : Option Elem) : Bool :=
  match loginButton with
  | some _ => false
  | none => true

/-! ### `manual_login` (lines 200-216)

The indentation and key sorting of `json.dump(..., indent=2,
sort_keys=True)` are not modelled; only which path is written and with
which cookie objects matters here. -/

/-- Line 215: the literal path `manual_login` opens for writing. -/
def MANUAL_LOGIN_PATH : String := "cookies.pkl"

/-- Lines 214-216: write the browser's current cookies as JSON to the
fixed relative path `"cookies.pkl"`. -/
def manual_login (fs : FS) (browser_cookies : List Cookie) : Except PyExn FS :=
  FS.writeFile fs MANUAL_LOGIN_PATH (json_dumps browser_cookies)

/-! ### `delete_context` (lines 218-252) -/

/-- Outcomes of the three `WebDriverWait ... .until` steps of
`delete_context`: the conversation-menu button, the Delete menu item and
the confirmation button of the popup.  `.error` models the
`TimeoutException` (or any other exception) raised by that step. -/
structure DeleteEnv where
  menuButton : Except PyExn Elem
  deleteMenuItem : Except PyExn Elem
  confirmButton : Except PyExn Elem

structure DeleteResult where
  is_context_created : Bool
  stepsClicked : Nat
deriving Repr, DecidableEq

/-- The `try` block of `delete_context`: perform the three steps in
order, stopping at the first that raises; returns how many clicks
happened and the exception, if any, that escaped the block. -/
def delete_context_steps (env : DeleteEnv) : Nat × Option PyExn :=
  match env.menuButton with
  | .error e => (0, some e)
  | .ok _ =>
    match env.deleteMenuItem with
    | .error e => (1, some e)
    | .ok _ =>
      match env.confirmButton with
      | .error e => (2, some e)
      | .ok _ => (3, none)

/-- Lines 218-252: run the three-step UI sequence inside
`try ... except Exception` (the exception is printed and swallowed),
then set `self.is_context_created = False` unconditionally. -/
def delete_context (env : DeleteEnv) : Except PyExn DeleteResult :=
  let (clicked, _swallowed) := delete_context_steps env
  .ok ⟨false, clicked⟩

/-! ### `check_chatgpt4o` (lines 254-300) and `upload_file` (lines 309-332) -/

/-- The three element lookups of `check_chatgpt4o`: the 5 s wait for the
"ChatGPT ... 4o" indicator, the 1 s wait for the "ChatGPT ... 3.5"
switcher, and the `wait_time` wait for the "GPT-4o" menu option.
`none` models the wait raising (caught by the surrounding `except`). -/
structure ModelSwitchEnv where
  indicator4o : Option Elem
  switcher35 : Option Elem
  option4o : Option Elem

structure ModelSwitchResult where
  ok : Bool
  clicked : List Elem
deriving Repr, DecidableEq

/-- Lines 254-300: if the 4o indicator is found, return `True`
("Already using chatGPT 4o.").  Otherwise look for the 3.5 switcher; if
`chatgpt_version` is still `None`, print "ChatGPT version not found."
and return `False`.  If the switcher was found, click it and look for
the GPT-4o option: found → click it and return `True`; not found →
return `False`.  `clicked` records the elements clicked, in order. -/
def check_chatgpt4o (env : ModelSwitchEnv) : ModelSwitchResult :=
  match env.indicator4o with
  | some _ => ⟨true, []⟩
  | none =>
    match env.switcher35 with
    | none => ⟨false, []⟩
    | some sw =>
      match env.option4o with
      | none => ⟨false, [sw]⟩
      | some opt => ⟨true, [sw, opt]⟩

/-- Lines 153-156: `self.use_4o` starts `False` and becomes `True` only
when `use_chatgpt4o` is set and `check_chatgpt4o` returns `True`. -/
def init_use_4o (use_chatgpt4o : Bool) (env : ModelSwitchEnv) : Bool :=
  use_chatgpt4o && (check_chatgpt4o env).ok

/-- Page interactions performed by `upload_file` after its guard. -/
inductive PageAction where
  | refresh
  | sendPathsToInput (joined : String)
  | waitOverlayInvisible
deriving Repr, DecidableEq

/-- The element lookups of `upload_file`: whether `refresh()` relocates
the prompt area within its wait (an exception there propagates, since it
happens before the `try`), the 10 s wait for the hidden file input, and
the 30 s wait for the upload overlay to become invisible. -/
structure UploadEnv where
  refreshOk : Bool
  fileInput : Option Elem
  overlayGone : Bool

/-- Lines 309-332: if `use_4o` is false, print and return `False`
without touching the page.  Otherwise refresh, locate the hidden file
input, send the newline-joined paths, and wait for the overlay to
disappear; any exception inside the `try` yields `False`.  The list
records the page interactions performed. -/
def upload_file (use_4o : Bool) (env : UploadEnv) (file_paths : List String) :
    Except PyExn (Bool × List PageAction) :=
  if use_4o = false then .ok (false, [])
  else if env.refreshOk = false then .error .timeoutException
  else
    match env.fileInput with
    | none => .ok (false, [.refresh])
    | some _ =>
      let joined := String.intercalate "\n" file_paths
      if env.overlayGone then
        .ok (true, [.refresh, .sendPathsToInput joined, .waitOverlayInvisible])
      else
        .ok (false, [.refresh, .sendPathsToInput joined])

/-! ### Python `str.split` / `str.join` (lines 163 and 402-405)

Strings manipulated character by character are embedded as `List Char`;
`pySplit` and `pyJoin` are the Python functions for a single-character
separator (`str.split(sep)` keeps empty fields and returns `[""]` on the
empty string). -/

/-- Python `s.split(sep)` for a one-character separator. -/
def pySplit (sep : Char) : List Char → List (List Char)
  | [] => [[]]
  | c :: rest =>
    match pySplit sep rest with
    | [] => [[]]
    | p :: ps => if c = sep then [] :: p :: ps else (c :: p) :: ps

/-- Python `sep.join(parts)` for a one-character separator. -/
def pyJoin (sep : Char) : List (List Char) → List Char
  | [] => []
  | [p] => p
  | p :: q :: ps => p ++ sep :: pyJoin sep (q :: ps)

/-- Lines 162-163: `if context_content:` is Python truthiness (the empty
string is falsy, so nothing is submitted); otherwise the opening message
is `'\n'.join(context_content.split("@"))`. -/
def context_submission (context_content : List Char) : Option (List Char) :=
  if context_content = [] then none
  else some (pyJoin '\n' (pySplit '@' context_content))

/-- One keystroke event sent to the prompt text area. -/
inductive KeyEvent where
  | text (line : List Char)
  | shiftReturn
deriving Repr, DecidableEq

/-- Lines 402-405: `request.split('\n')`, then for each line send the
line followed by `Keys.SHIFT, Keys.RETURN`. -/
def send_request_keys (request : List Char) : List KeyEvent :=
  ((pySplit '\n' request).map (fun line => [KeyEvent.text line, KeyEvent.shiftReturn])).flatten

/-! ### `check_conditions` (lines 334-374) -/

/-- Element lookups of `check_conditions`, per attempt index: the
`wait_time` wait for the element of `present_css` (the send button) and
the 5 s wait for the element of `absent_xpath` (the "Continue
generating" button).  `none` models `TimeoutException`. -/
structure CondEnv where
  present : Nat → Option Elem
  continueGen : Nat → Option Elem

structure CondResult where
  found : Option Elem
  clicks : Nat
  attempts : Nat
deriving Repr, DecidableEq

/-- The body of `check_conditions`' `for attempt in range(retries)`
loop: on each attempt, wait for the present element (`TimeoutException`
→ `continue`); then wait for the continue-generating element: found →
click it, sleep, `continue`; `TimeoutException` → it is absent, return
the present element.  Falling off the loop returns `None`.  `clicks`
counts clicks on the continue-generating button and `attempts` the loop
iterations run. -/
def check_conditions_loop (env : CondEnv) :
    List Nat → Nat → Nat → CondResult
  | [], clicks, attempts => ⟨none, clicks, attempts⟩
  | a :: rest, clicks, attempts =>
    match env.present a with
    | none => check_conditions_loop env rest clicks (attempts + 1)
    | some sendBtn =>
      match env.continueGen a with
      | some _ => check_conditions_loop env rest (clicks + 1) (attempts + 1)
      | none => ⟨some sendBtn, clicks, attempts + 1⟩

/-- Lines 334-374: `check_conditions` with its retry budget
(`retries=4` at the call site, line 440). -/
def check_conditions (env : CondEnv) (retries : Nat) : CondResult :=
  check_conditions_loop env (List.range retries) 0 0

/-! ### `click_regen` (lines 456-475) and the retry loop of
`send_request` (lines 417-454) -/

/-- Lines 456-475: wait up to 5 s for the Regenerate button and click
it; any exception is swallowed.  Returns whether the button was found
and clicked. -/
def click_regen (regenButton : Option Elem) : Bool :=
  match regenButton with
  | some _ => true
  | none => false

/-- Oracles for the `while max_try > 0` loop of `send_request`,
per attempt index: the 3 s stop-button wait (its exception is swallowed
by the inner bare `except`), the environment `check_conditions` runs in,
the `wait_time` wait for `presence_of_all_elements_located` on the
assistant messages (`none` models `TimeoutException`; Selenium only ever
returns a non-empty list), and `click_regen`'s 5 s Regenerate-button
wait. -/
structure SendEnv where
  stopButton : Nat → Option Elem
  cond : Nat → CondEnv
  assistantMsgs : Nat → Option (List Elem)
  regen : Nat → Option Elem

/-- Outcome of `send_request`'s polling phase: the string returned, or
the Python exception that escapes to the caller. -/
inductive SendOutcome where
  | returns (text : String)
  | raises (e : PyExn)
deriving Repr, DecidableEq

/-- The final `return last_answer.text` (line 454), reached when
`max_try` is exhausted.  `last_answer` is a local of the loop: if no
attempt ever bound it, the reference raises `UnboundLocalError`; if the
last binding was the (in practice non-empty) element list, `.text` on a
list raises `AttributeError`. -/
def send_finish (last_answer : Option (List Elem)) : SendOutcome :=
  match last_answer with
  | none => .raises .unboundLocalError
  | some l =>
    match l.getLast? with
    | some e => .returns e.text
    | none => .raises (.other "AttributeError")

/-- Lines 417-454, the `while max_try > 0` loop.  One iteration: wait
for the stop button (exception swallowed), run `check_conditions` (its
result becomes `self.send_button` on success), wait for the assistant
message elements and take the last (`last_answer[-1]`); on success
return its text, on any exception call `click_regen` and decrement
`max_try`.  Arguments: the remaining budget, the attempt index, the
current binding of `last_answer`, and the `click_regen` invocation count
so far; returns the outcome and the total `click_regen` invocations. -/
def send_request_loop (env : SendEnv) :
    Nat → Nat → Option (List Elem) → Nat → SendOutcome × Nat
  | 0, _, last_answer, regens => (send_finish last_answer, regens)
  | Nat.succ k, i, last_answer, regens =>
    let _stop := env.stopButton i
    let _sendBtn := (check_conditions (env.cond i) 4).found
    match env.assistantMsgs i with
    | none =>
      let _ := click_regen (env.regen i)
      send_request_loop env k (i + 1) last_answer (regens + 1)
    | some l =>
      match l.getLast? with
      | none =>
        let _ := click_regen (env.regen i)
        send_request_loop env k (i + 1) (some l) (regens + 1)
      | some e => (.returns e.text, regens)

/-- Line 417: `max_try = 3`. -/
def MAX_TRY : Nat := 3

/-- The whole polling phase of `send_request`: the retry loop entered
with `max_try = 3` and `last_answer` unbound. -/
def send_request_poll (env : SendEnv) : SendOutcome × Nat :=
  send_request_loop env MAX_TRY 0 none 0

/-! ## Helper lemmas -/

lemma pySplit_ne_nil (sep : Char) (l : List Char) : pySplit sep l ≠ [] := by
  cases l with
  | nil => simp [pySplit]
  | cons c rest =>
    simp only [pySplit]
    cases pySplit sep rest with
    | nil => simp
    | cons p ps => by_cases hc : c = sep <;> simp [hc]

lemma pyJoin_cons_cons (rep : Char) (c : Char) (p : List Char) (ps : List (List Char)) :
    pyJoin rep ((c :: p) :: ps) = c :: pyJoin rep (p :: ps) := by
  cases ps with
  | nil => rfl
  | cons q qs => rfl

lemma pyJoin_pySplit (sep rep : Char) (l : List Char) :
    pyJoin rep (pySplit sep l) = l.map (fun c => if c = sep then rep else c) := by
  induction l with
  | nil => rfl
  | cons c rest ih =>
    cases hps : pySplit sep rest with
    | nil => exact absurd hps (pySplit_ne_nil sep rest)
    | cons p ps =>
      rw [hps] at ih
      by_cases hc : c = sep
      · rw [show pySplit sep (c :: rest) = [] :: p :: ps by
          simp [pySplit, hps, if_pos hc]]
        have h1 : pyJoin rep ([] :: p :: ps) = rep :: pyJoin rep (p :: ps) := rfl
        rw [h1, ih, List.map_cons, if_pos hc]
      · rw [show pySplit sep (c :: rest) = (c :: p) :: ps by
          simp [pySplit, hps, if_neg hc]]
        rw [pyJoin_cons_cons, ih, List.map_cons, if_neg hc]

lemma check_conditions_loop_continue (env : CondEnv) (l : List Nat) (c a : Nat)
    (h : ∀ i ∈ l, (env.continueGen i).isSome = true) :
    (check_conditions_loop env l c a).found = none
    ∧ (check_conditions_loop env l c a).attempts = a + l.length
    ∧ (check_conditions_loop env l c a).clicks ≤ c + l.length := by
  induction l generalizing c a with
  | nil => simp [check_conditions_loop]
  | cons x xs ih =>
    have hx : (env.continueGen x).isSome = true := h x (by simp)
    have hxs : ∀ i ∈ xs, (env.continueGen i).isSome = true :=
      fun i hi => h i (by simp [hi])
    cases hp : env.present x with
    | none =>
      simp only [check_conditions_loop, hp]
      obtain ⟨h1, h2, h3⟩ := ih c (a + 1) hxs
      refine ⟨h1, ?_, ?_⟩
      · rw [h2]; simp only [List.length_cons]; omega
      · have hle : c + xs.length ≤ c + (x :: xs).length := by
          simp only [List.length_cons]; omega
        exact le_trans h3 hle
    | some sb =>
      cases hcg : env.continueGen x with
      | none => rw [hcg] at hx; simp at hx
      | some e =>
        simp only [check_conditions_loop, hp, hcg]
        obtain ⟨h1, h2, h3⟩ := ih (c + 1) (a + 1) hxs
        refine ⟨h1, ?_, ?_⟩
        · rw [h2]; simp only [List.length_cons]; omega
        · have hle : c + 1 + xs.length ≤ c + (x :: xs).length := by
            simp only [List.length_cons]; omega
          exact le_trans h3 hle

lemma no_domain_of_popDomain (c0 : Cookie) :
    "domain" ∉ (popDomain c0).map Prod.fst := by
  intro hmem
  rcases List.mem_map.mp hmem with ⟨kv, hkv, hfst⟩
  rcases List.mem_filter.mp hkv with ⟨_, hne⟩
  simp only [decide_eq_true_eq] at hne
  exact hne hfst

lemma lookup_filter_ne (fs : FS) (p k : String) (h : p ≠ k) :
    List.lookup p (fs.filter (fun kv => kv.1 ≠ k)) = List.lookup p fs := by
  induction fs with
  | nil => rfl
  | cons kv rest ih =>
    obtain ⟨k1, v1⟩ := kv
    simp only [ne_eq, decide_not] at ih ⊢
    simp only [List.filter_cons]
    by_cases hk : k1 = k
    · have hpk : (p == k1) = false := by
        subst hk; simpa using h
      rw [if_neg (by simp [hk])]
      rw [ih]
      simp [List.lookup, hpk]
    · rw [if_pos (by simp [hk])]
      by_cases hpk : p = k1
      · subst hpk
        simp [List.lookup]
      · have hpk2 : (p == k1) = false := by simpa using hpk
        simp [List.lookup, hpk2]
        exact ih

/-! ## Claims -/

/-- C7: `is_login` returns true if and only if no login-prompt control
(button with data-testid "login-button") is located within its probe
timeout; if the control is located, it returns false. -/
theorem is_login_true_iff_button_absent :
    ∀ loginButton : Option Elem,
      (is_login loginButton = true ↔ loginButton = none)
      ∧ ∀ e : Elem, is_login (some e) = false := by
  intro loginButton
  refine ⟨?_, fun e => rfl⟩
  cases loginButton <;> simp [is_login]

/-- C8: every exception raised by any of the three UI steps of
`delete_context` is caught and never propagates to the caller, and on
every execution — wherever the sequence succeeds or fails — the
`is_context_created` flag is false afterward. -/
theorem delete_context_swallows_and_clears_flag :
    ∀ env : DeleteEnv, ∃ r : DeleteResult,
      delete_context env = Except.ok r ∧ r.is_context_created = false := by
  intro env
  exact ⟨⟨false, (delete_context_steps env).1⟩, rfl, rfl⟩

/-- C9 (counter-statement): with `cookies_path` left at its default
empty string, initialization does not complete with no cookie I/O — it
attempts to create a cookie file at the empty path and raises
`FileNotFoundError` (CPython `open("", 'w')`), for every filesystem
state. -/
theorem cookie_init_empty_path_raises :
    ∀ fs : FS, cookie_init fs "" = Except.error PyExn.fileNotFoundError := by
  intro fs
  simp [cookie_init, cookie_init_file, FS.pathExists, FS.writeFile]

/-- C1 (counter-statement): when all three retry attempts of the
response-polling loop raise an exception, `click_regen` is indeed
attempted exactly three times, but the call does not return a string:
the final `return last_answer.text` references the never-bound local
`last_answer` and raises `UnboundLocalError`. -/
theorem send_request_exhaustion_raises (env : SendEnv)
    (h : ∀ i, env.assistantMsgs i = none) :
    send_request_poll env = (SendOutcome.raises PyExn.unboundLocalError, 3) := by
  simp [send_request_poll, MAX_TRY, send_request_loop, h, send_finish]

theorem send_request_exhaustion_raises_witness :
    send_request_poll
        ⟨fun _ => none, fun _ => ⟨fun _ => none, fun _ => none⟩,
         fun _ => none, fun _ => none⟩ =
      (SendOutcome.raises PyExn.unboundLocalError, 3) :=
  send_request_exhaustion_raises
    ⟨fun _ => none, fun _ => ⟨fun _ => none, fun _ => none⟩,
     fun _ => none, fun _ => none⟩
    (fun _ => rfl)

/-- C2: when the "continue generating" control is present on every
polling pass, `check_conditions` (with its retry budget of 4)
terminates after exactly its 4 bounded attempts, clicks the control at
most once per attempt (so at most 4 times), and returns `None`. -/
theorem check_conditions_continue_always_terminates (env : CondEnv)
    (h : ∀ i, (env.continueGen i).isSome = true) :
    (check_conditions env 4).found = none
    ∧ (check_conditions env 4).attempts = 4
    ∧ (check_conditions env 4).clicks ≤ 4 := by
  have := check_conditions_loop_continue env (List.range 4) 0 0
    (fun i _ => h i)
  simpa [check_conditions] using this

theorem check_conditions_continue_always_terminates_witness :
    (check_conditions ⟨fun _ => some ⟨"send"⟩, fun _ => some ⟨"continue"⟩⟩ 4).found = none
    ∧ (check_conditions ⟨fun _ => some ⟨"send"⟩, fun _ => some ⟨"continue"⟩⟩ 4).attempts = 4
    ∧ (check_conditions ⟨fun _ => some ⟨"send"⟩, fun _ => some ⟨"continue"⟩⟩ 4).clicks ≤ 4 :=
  check_conditions_continue_always_terminates
    ⟨fun _ => some ⟨"send"⟩, fun _ => some ⟨"continue"⟩⟩ (fun _ => rfl)

/-- C3: for every cookies file that initialization accepts (a valid
JSON array of objects), every cookie object passed to the browser's
`add_cookie` contains no `domain` key, whether or not the original
objects contained one. -/
theorem cookie_injection_strips_domain (fs : FS) (p : String) (r : CookieInit)
    (h : cookie_init fs p = Except.ok r) :
    ∀ c ∈ r.injected, "domain" ∉ c.map Prod.fst := by
  unfold cookie_init at h
  split at h
  · exact Except.noConfusion h
  · split at h
    · exact Except.noConfusion h
    · split at h
      · exact Except.noConfusion h
      · simp only [Except.ok.injEq] at h
        subst h
        intro c hc
        rcases List.mem_map.mp hc with ⟨c0, _, hc0⟩
        rw [← hc0]
        exact no_domain_of_popDomain c0

theorem cookie_injection_strips_domain_witness :
    "domain" ∉ ([("name", "sess")] : Cookie).map Prod.fst :=
  cookie_injection_strips_domain
    [("ck", "[\x7b\"name\": \"sess\", \"domain\": \"x.com\"\x7d]")] "ck"
    ⟨[("ck", "[\x7b\"name\": \"sess\", \"domain\": \"x.com\"\x7d]")], false,
     [[("name", "sess")]]⟩
    (by rfl) [("name", "sess")] (by decide)

/-- C4: a non-empty `context_content` is submitted as the opening
message with every `@` replaced by a newline; in particular
`"Hello@How are you?"` produces `"Hello\nHow are you?"`, and
`send_request` sends each newline-separated line of that message
followed by a SHIFT+RETURN key combination. -/
theorem context_submission_replaces_at_separators (s : List Char) (h : s ≠ []) :
    context_submission s = some (s.map (fun c => if c = '@' then '\n' else c))
    ∧ context_submission "Hello@How are you?".toList = some "Hello\nHow are you?".toList
    ∧ send_request_keys "Hello\nHow are you?".toList =
        [KeyEvent.text "Hello".toList, KeyEvent.shiftReturn,
         KeyEvent.text "How are you?".toList, KeyEvent.shiftReturn] := by
  refine ⟨?_, by decide, by decide⟩
  simp [context_submission, h, pyJoin_pySplit]

theorem context_submission_replaces_at_separators_witness :
    context_submission "Hello@How are you?".toList =
      some ("Hello@How are you?".toList.map (fun c => if c = '@' then '\n' else c)) :=
  (context_submission_replaces_at_separators "Hello@How are you?".toList (by decide)).1

/-- C5: when no file exists at a (non-empty) configured `cookies_path`,
initialization creates a file there containing exactly the JSON text
`[]` and cookie injection proceeds with zero cookies. -/
theorem cookies_file_absent_initializes_empty (fs : FS) (p : String)
    (hp : p ≠ "") (h : FS.pathExists fs p = false) :
    ∃ fsNew : FS, cookie_init fs p = Except.ok ⟨fsNew, true, []⟩
      ∧ fsNew.lookupFile p = some "[]" := by
  refine ⟨(p, json_dumps []) :: fs.filter (fun kv => kv.1 ≠ p), ?_, ?_⟩
  · unfold cookie_init cookie_init_file
    rw [h]
    simp only [Bool.false_eq_true, if_false]
    simp only [FS.writeFile, if_neg hp]
    simp only [FS.readFile, if_neg hp, FS.lookupFile, List.lookup,
      beq_self_eq_true]
    rw [show json_loads_cookies (json_dumps []) = some [] from by decide]
    rfl
  · simp only [FS.lookupFile, List.lookup, beq_self_eq_true]
    rfl

theorem cookies_file_absent_initializes_empty_witness :
    ∃ fsNew : FS, cookie_init [] "cookies.json" = Except.ok ⟨fsNew, true, []⟩
      ∧ fsNew.lookupFile "cookies.json" = some "[]" :=
  cookies_file_absent_initializes_empty [] "cookies.json" (by decide) (by decide)

/-- C6: when `use_chatgpt4o` is true but neither the advanced-model
indicator nor the model-switcher control is found within their
timeouts, `check_chatgpt4o` returns false without clicking anything,
`use_4o` stays false, and every subsequent `upload_file` call returns
false immediately with no page interaction. -/
theorem advanced_model_unavailable (env : ModelSwitchEnv)
    (h1 : env.indicator4o = none) (h2 : env.switcher35 = none) :
    check_chatgpt4o env = ⟨false, []⟩
    ∧ init_use_4o true env = false
    ∧ ∀ (uenv : UploadEnv) (paths : List String),
        upload_file (init_use_4o true env) uenv paths = Except.ok (false, []) := by
  have hc : check_chatgpt4o env = ⟨false, []⟩ := by
    simp [check_chatgpt4o, h1, h2]
  have hu : init_use_4o true env = false := by
    simp [init_use_4o, hc]
  exact ⟨hc, hu, fun uenv paths => by simp [upload_file, hu]⟩

theorem advanced_model_unavailable_witness :
    check_chatgpt4o ⟨none, none, some ⟨"opt"⟩⟩ = ⟨false, []⟩
    ∧ upload_file (init_use_4o true ⟨none, none, some ⟨"opt"⟩⟩)
        ⟨true, some ⟨"input"⟩, true⟩ ["report.txt"] = Except.ok (false, []) := by
  have h := advanced_model_unavailable ⟨none, none, some ⟨"opt"⟩⟩ rfl rfl
  exact ⟨h.1, h.2.2 ⟨true, some ⟨"input"⟩, true⟩ ["report.txt"]⟩

/-- C10: `manual_login` writes the freshly captured cookies as JSON to
the fixed relative path `"cookies.pkl"`, whatever the configured
`cookies_path`; so when `cookies_path ≠ "cookies.pkl"`, the file that
initialization reads is untouched by the manual-login write. -/
theorem manual_login_writes_fixed_path (fs : FS) (cookies : List Cookie)
    (cookies_path : String) (h : cookies_path ≠ "cookies.pkl") :
    ∃ fs2 : FS, manual_login fs cookies = Except.ok fs2
      ∧ fs2.lookupFile MANUAL_LOGIN_PATH = some (json_dumps cookies)
      ∧ fs2.lookupFile cookies_path = fs.lookupFile cookies_path := by
  refine ⟨("cookies.pkl", json_dumps cookies)
      :: fs.filter (fun kv => kv.1 ≠ "cookies.pkl"), ?_, ?_, ?_⟩
  · simp [manual_login, MANUAL_LOGIN_PATH, FS.writeFile]
  · simp [FS.lookupFile, MANUAL_LOGIN_PATH, List.lookup]
  · have hb : (cookies_path == "cookies.pkl") = false := by simpa using h
    simp only [FS.lookupFile, List.lookup, hb]
    exact lookup_filter_ne fs cookies_path "cookies.pkl" h

theorem manual_login_writes_fixed_path_witness :
    ∃ fs2 : FS, manual_login [("conf.json", "old")] [] = Except.ok fs2
      ∧ fs2.lookupFile MANUAL_LOGIN_PATH = some (json_dumps [])
      ∧ fs2.lookupFile "conf.json" = FS.lookupFile [("conf.json", "old")] "conf.json" :=
  manual_login_writes_fixed_path [("conf.json", "old")] [] "conf.json" (by decide)

end FakeChatGPT
